import Mathlib

/-!
Shallow embedding of the order lifecycle and delivery-assignment engine of the
Indian Food App (`app.py`, `drivers_api.py`).

Monetary amounts and coordinates are modelled as rationals, quantities as
integers, statuses as raw strings (the code stores arbitrary strings, and the
driver API writes the string "on_the_way" which is outside the admin status
enum).  The SQLite `orders` table is modelled as a list of `Order` records;
each HTTP endpoint becomes a function from the store (plus its request data)
to a result together with the updated store.  The external geo estimate used
by dynamic pricing is passed in as an explicit `(distance, duration)` pair,
since the code obtains it by network I/O before any store write.
-/

namespace IndianFood

/-- A line item of an order: unit price and quantity, as submitted. -/
structure Item where
  price : ℚ
  qty : ℤ
deriving Repr, DecidableEq

/-- A row of the `orders` table (`app.py`, `init_db`). -/
structure Order where
  id : ℕ
  userId : Option ℕ
  items : List Item
  total : ℚ
  status : String
  createdAt : ℕ
  driverId : Option ℕ
  driverStatus : Option String
  pickedUpAt : Option ℕ
  deliveredAt : Option ℕ
  itemsTotal : ℚ
  deliveryFee : ℚ
  serviceFee : ℚ
  grandTotal : ℚ
  dropoffLat : Option ℚ
  dropoffLng : Option ℚ
deriving Repr, DecidableEq

/-- The process-wide pricing configuration, read from the environment in
`app.py` (DELIVERY_FEE_MODE, DELIVERY_FEE_FLAT, SERVICE_FEE_PERCENT,
DELIVERY_BASE_FEE, DELIVERY_PER_KM, DELIVERY_PER_MIN, DELIVERY_MIN_FEE,
DELIVERY_MAX_FEE). -/
structure PricingConfig where
  mode : String
  flatFee : ℚ
  servicePercent : ℚ
  baseFee : ℚ
  perKm : ℚ
  perMin : ℚ
  minFee : ℚ
  maxFee : ℚ
deriving Repr, DecidableEq

/-- `sum(price * qty for item in items)`, the items subtotal computed by both
order-placement paths. -/
def itemsSum (items : List Item) : ℚ :=
  (items.map fun i => i.price * (i.qty : ℚ)).sum

/-- Python's built-in `round`: round half to even (used by
`compute_dynamic_delivery_fee`). -/
def pyRound (q : ℚ) : ℤ :=
  if q - (⌊q⌋ : ℚ) < 1/2 then ⌊q⌋
  else if 1/2 < q - (⌊q⌋ : ℚ) then ⌊q⌋ + 1
  else if 2 ∣ ⌊q⌋ then ⌊q⌋ else ⌊q⌋ + 1

/-- The raw (unclamped, unrounded) dynamic fee: distance and duration are
floored at 0 before multiplication. -/
def rawDynamicFee (cfg : PricingConfig) (dist_km dur_min : ℚ) : ℚ :=
  cfg.baseFee + cfg.perKm * max dist_km 0 + cfg.perMin * max dur_min 0

/-- `compute_dynamic_delivery_fee` (app.py, lines 367-385), with the geo
estimate `(dist_km, dur_min)` supplied by the caller: floor the estimate at 0,
apply the linear formula, clamp below by `min_fee` if `min_fee > 0`, clamp
above by `max_fee` if `max_fee > 0`, then `round`. -/
def compute_dynamic_delivery_fee (cfg : PricingConfig) (dist_km dur_min : ℚ) : ℤ :=
  let fee := cfg.baseFee + cfg.perKm * max dist_km 0 + cfg.perMin * max dur_min 0
  let fee1 := if cfg.minFee > 0 then max fee cfg.minFee else fee
  let fee2 := if cfg.maxFee > 0 then min fee1 cfg.maxFee else fee1
  pyRound fee2

/-- The fee pipeline as the specification sentence reads it: round the linear
formula first, then clamp the rounded value to the configured bounds
(a bound of 0 disables the clamp on that side). -/
def dynamicFeeRoundThenClamp (cfg : PricingConfig) (dist_km dur_min : ℚ) : ℚ :=
  let fee : ℚ := pyRound (rawDynamicFee cfg dist_km dur_min)
  let fee1 := if cfg.minFee > 0 then max fee cfg.minFee else fee
  if cfg.maxFee > 0 then min fee1 cfg.maxFee else fee1

/-- Clamping a value to the configured bounds, each side active only when its
bound is positive. -/
def clampToBounds (cfg : PricingConfig) (x : ℚ) : ℚ :=
  if cfg.maxFee > 0 then
    min (if cfg.minFee > 0 then max x cfg.minFee else x) cfg.maxFee
  else if cfg.minFee > 0 then max x cfg.minFee else x

/-- `service_fee = items_total * (SERVICE_FEE_PERCENT/100.0)` when the
percentage is positive, else 0. -/
def serviceFeeOf (cfg : PricingConfig) (itemsTotal : ℚ) : ℚ :=
  if cfg.servicePercent > 0 then itemsTotal * (cfg.servicePercent / 100) else 0

/-- `SELECT ... FROM orders WHERE id=?` (first matching row). -/
def findOrder (store : List Order) (oid : ℕ) : Option Order :=
  store.find? fun o => o.id = oid

/-- `UPDATE orders SET ... WHERE id=?`: apply `g` to every row whose id
matches. -/
def updateOrder (store : List Order) (oid : ℕ) (g : Order → Order) : List Order :=
  store.map fun o => if o.id = oid then g o else o

/-- Python truthiness of the `driver_id` column (`if o["driver_id"]:`):
NULL and 0 are falsy. -/
def truthyDriver : Option ℕ → Bool
  | none => false
  | some n => n != 0

/-- The web-form order endpoint `order` (app.py, lines 458-477): price the
items with the flat fee and the service percentage, and insert a new `pending`
row; there is no validation of the item list. -/
def webOrder (cfg : PricingConfig) (store : List Order) (userId : ℕ)
    (items : List Item) (newId now : ℕ) : List Order :=
  let items_total := itemsSum items
  let service_fee := serviceFeeOf cfg items_total
  let delivery_fee := if cfg.flatFee > 0 then cfg.flatFee else 0
  let grand_total := items_total + service_fee + delivery_fee
  store ++ [{ id := newId, userId := some userId, items := items,
              total := grand_total, status := "pending", createdAt := now,
              driverId := none, driverStatus := none, pickedUpAt := none,
              deliveredAt := none, itemsTotal := items_total,
              deliveryFee := delivery_fee, serviceFee := service_fee,
              grandTotal := grand_total, dropoffLat := none, dropoffLng := none }]

/-- Result of the JSON order endpoint. -/
inductive ApiOrderResult
  | noItems
  | placed (orderId : ℕ) (total : ℚ)
deriving Repr, DecidableEq

/-- The row inserted by the JSON order endpoint `api_order` (app.py, lines
1008-1064).  Missing coordinates are read as 0 (`float(data.get(...) or 0)`);
the dynamic fee is used only when the mode is "dynamic" and all four
coordinates are truthy (`all([...])`, i.e. nonzero), otherwise the flat fee
value is used.  `(dist_km, dur_min)` is the geo estimate the dynamic-fee
computation would obtain. -/
def apiOrderRow (cfg : PricingConfig) (dist_km dur_min : ℚ)
    (userId : Option ℕ) (items : List Item)
    (dropLat dropLng restLat restLng : Option ℚ) (newId now : ℕ) : Order :=
  let items_total := itemsSum items
  let drop_lat := dropLat.getD 0
  let drop_lng := dropLng.getD 0
  let rest_lat := restLat.getD 0
  let rest_lng := restLng.getD 0
  let delivery_fee : ℚ :=
    if cfg.mode = "dynamic" ∧ rest_lat ≠ 0 ∧ rest_lng ≠ 0 ∧ drop_lat ≠ 0 ∧ drop_lng ≠ 0 then
      (compute_dynamic_delivery_fee cfg dist_km dur_min : ℚ)
    else cfg.flatFee
  let service_fee := serviceFeeOf cfg items_total
  let grand_total := items_total + service_fee + delivery_fee
  { id := newId, userId := userId, items := items,
    total := grand_total, status := "pending", createdAt := now,
    driverId := none, driverStatus := none, pickedUpAt := none,
    deliveredAt := none, itemsTotal := items_total,
    deliveryFee := delivery_fee, serviceFee := service_fee,
    grandTotal := grand_total, dropoffLat := some drop_lat,
    dropoffLng := some drop_lng }

/-- The JSON order endpoint `api_order` (app.py, lines 1008-1064): an empty
item list is rejected before any store write; otherwise the priced row is
inserted and `(order_id, grand_total)` is returned. -/
def api_order (cfg : PricingConfig) (dist_km dur_min : ℚ) (store : List Order)
    (userId : Option ℕ) (items : List Item)
    (dropLat dropLng restLat restLng : Option ℚ) (newId now : ℕ) :
    ApiOrderResult × List Order :=
  if items.isEmpty then (.noItems, store)
  else
    let r := apiOrderRow cfg dist_km dur_min userId items dropLat dropLng restLat restLng newId now
    (.placed newId r.grandTotal, store ++ [r])

/-- Result of the driver accept endpoint. -/
inductive AcceptResult
  | notFound
  | alreadyAssigned
  | alreadyClosed
  | accepted (status : String)
deriving Repr, DecidableEq

/-- The status written by a successful accept:
`"on_the_way" if o["status"] in ("pending", "preparing", "on_the_way") else o["status"]`. -/
def acceptNewStatus (st : String) : String :=
  if st = "pending" ∨ st = "preparing" ∨ st = "on_the_way" then "on_the_way" else st

/-- `api_driver_accept` (drivers_api.py, lines 256-277): the order must exist,
its `driver_id` must be falsy (NULL or 0), and its status must not be
`delivered` or `cancelled`; then the driver id and the new status are written. -/
def api_driver_accept (store : List Order) (oid driverId : ℕ) :
    AcceptResult × List Order :=
  match findOrder store oid with
  | none => (.notFound, store)
  | some o =>
    if truthyDriver o.driverId then (.alreadyAssigned, store)
    else if o.status = "delivered" ∨ o.status = "cancelled" then (.alreadyClosed, store)
    else
      let ns := acceptNewStatus o.status
      (.accepted ns,
       updateOrder store oid fun p => { p with driverId := some driverId, status := ns })

/-- The admin status enum accepted by `admin_order_status`. -/
def allowedStatuses : List String :=
  ["pending", "confirmed", "preparing", "out_for_delivery", "ready", "delivered", "cancelled"]

/-- `admin_order_status` (app.py, lines 759-804), store effect only (the email
side effect never touches the store): if the requested status is in the enum,
overwrite the status of the matching row unconditionally — the current status
of the order is never consulted. -/
def admin_order_status (store : List Order) (oid : ℕ) (newStatus : String) :
    Bool × List Order :=
  if newStatus ∈ allowedStatuses then
    (true, updateOrder store oid fun o => { o with status := newStatus })
  else (false, store)

/-- Result of the driver update endpoint. -/
inductive UpdateResult
  | ok
  | orderNotFound
  | wrongDriver
deriving Repr, DecidableEq

/-- The canonical status written by a driver-reported sub-status:
`picked_up` maps to `on_the_way`, `delivered` to `delivered`, anything else
keeps the current status. -/
def driverUpdateNewStatus (cur sub : String) : String :=
  if sub = "picked_up" then "on_the_way"
  else if sub = "delivered" then "delivered"
  else cur

/-- `api_driver_update` (drivers_api.py, lines 280-320), order-status part (the
driver-location part touches only the `drivers` table).  The order branch runs
only when both `order_id` and `status` are truthy; the order must exist and be
assigned to the calling driver; then the status is rewritten when it changes.
No timestamp column is ever written. -/
def api_driver_update_go (store : List Order) (d oid : ℕ) (st : String) :
    UpdateResult × List Order :=
  if oid ≠ 0 ∧ st ≠ "" then
    match findOrder store oid with
    | none => (.orderNotFound, store)
    | some o =>
      if o.driverId ≠ some d then (.wrongDriver, store)
      else
        let ns := driverUpdateNewStatus o.status st
        if ns ≠ o.status then (.ok, updateOrder store oid fun p => { p with status := ns })
        else (.ok, store)
  else (.ok, store)

/-- Entry point of `api_driver_update`: the order branch runs only when both
`order_id` and `status` are present (truthiness of the missing case). -/
def api_driver_update (store : List Order) (d : ℕ)
    (orderId : Option ℕ) (subStatus : Option String) :
    UpdateResult × List Order :=
  match orderId, subStatus with
  | some oid, some st => api_driver_update_go store d oid st
  | _, _ => (.ok, store)

/-- The filter of `api_open_orders` (app.py, lines 992-1003):
`(driver_id IS NULL OR driver_id = 0) AND status IN ('confirmed','preparing','ready')`. -/
def openOrderPred (o : Order) : Bool :=
  (o.driverId = none ∨ o.driverId = some 0) ∧
    (o.status = "confirmed" ∨ o.status = "preparing" ∨ o.status = "ready")

/-- `api_open_orders` (app.py, lines 992-1003): filter, `ORDER BY id ASC`,
`LIMIT 50`. -/
def api_open_orders (store : List Order) : List Order :=
  ((store.filter openOrderPred).mergeSort fun a b => a.id ≤ b.id).take 50

/-- The filter of the default branch of `api_driver_orders` (drivers_api.py,
lines 235-253): `status IN ('pending','preparing') AND driver_id IS NULL`. -/
def driverOrdersPred (o : Order) : Bool :=
  (o.status = "pending" ∨ o.status = "preparing") ∧ o.driverId = none

/-- Column names of the `orders` table: the `init_db` CREATE TABLE in app.py
together with every `_safe_alter` migration in app.py and the `driver_id`
migration in drivers_api.py (db_setup.py declares a strict subset of these,
and `_migrate` in drivers_api.py adds only `driver_id`). -/
def ordersColumns : List String :=
  ["id", "user_id", "items_json", "total", "status", "created_at",
   "driver_id", "driver_status", "picked_up_at", "delivered_at",
   "driver_updates", "items_total", "delivery_fee", "service_fee",
   "grand_total", "restaurant_id", "dropoff_lat", "dropoff_lng"]

/-- The columns named in the SELECT of both branches of the drivers_api
listing query (drivers_api.py, lines 241-249). -/
def driverOrdersSelectColumns : List String :=
  ["id", "customer_name", "name", "phone", "address", "total", "status", "created_at"]

/-- `api_driver_orders`, default branch (drivers_api.py, lines 235-253):
SQLite first resolves the selected column names against the table; a name
absent from the `orders` schema raises `sqlite3.OperationalError`
("no such column"), which Flask surfaces as a 500 error, so no row list is
ever produced.  Only if every selected column existed would the query return
the filtered rows, `ORDER BY created_at DESC`, with no limit. -/
def api_driver_orders (store : List Order) : Except String (List Order) :=
  match driverOrdersSelectColumns.find? (fun c => !(ordersColumns.contains c)) with
  | some c => .error ("no such column: " ++ c)
  | none => .ok ((store.filter driverOrdersPred).mergeSort fun a b => b.createdAt ≤ a.createdAt)

/-- A dynamic pricing configuration whose minimum fee is the fractional value
10.5, with base fee 10.2 and no per-distance or per-duration rates. -/
def cfgFracMin : PricingConfig := ⟨"dynamic", 0, 0, 51/5, 0, 0, 21/2, 0⟩

/-- A dynamic pricing configuration with a negative per-km rate. -/
def cfgNegRate : PricingConfig := ⟨"dynamic", 0, 0, 0, -1, 0, 0, 0⟩

/-- A dynamic pricing configuration with base 5, fractional minimum fee 10.5
and maximum fee 20. -/
def cfgFracClamp : PricingConfig := ⟨"dynamic", 0, 0, 5, 0, 0, 21/2, 20⟩

/-- A flat pricing configuration with flat fee 15000 and no service fee. -/
def cfgFlat : PricingConfig := ⟨"flat", 15000, 0, 0, 0, 0, 0, 0⟩

/-- A dynamic pricing configuration with integer parameters. -/
def cfgDyn : PricingConfig := ⟨"dynamic", 15000, 0, 10000, 3000, 500, 12000, 90000⟩

/-- An order in status `confirmed` with no driver assigned. -/
def confirmedOrder : Order :=
  ⟨1, some 2, [], 0, "confirmed", 5, none, none, none, none, 0, 0, 0, 0, none, none⟩

/-- A delivered order with no driver assigned. -/
def deliveredOrder : Order := { confirmedOrder with status := "delivered" }

/-- A pending order assigned to driver 5, with no pickup timestamp. -/
def assignedPendingOrder : Order :=
  { confirmedOrder with status := "pending", driverId := some 5 }

/-- A pending unassigned order. -/
def pendingOrder : Order := { confirmedOrder with status := "pending" }

end IndianFood

namespace IndianFood

theorem le_pyRound (q : ℚ) : ⌊q⌋ ≤ pyRound q := by
  unfold pyRound; split_ifs <;> omega

theorem pyRound_le_floor_add_one (q : ℚ) : pyRound q ≤ ⌊q⌋ + 1 := by
  unfold pyRound; split_ifs <;> omega

theorem pyRound_mono {a b : ℚ} (h : a ≤ b) : pyRound a ≤ pyRound b := by
  have hf : ⌊a⌋ ≤ ⌊b⌋ := Int.floor_mono h
  rcases eq_or_lt_of_le hf with hf' | hf'
  · have hr : a - (⌊a⌋ : ℚ) ≤ b - (⌊b⌋ : ℚ) := by
      rw [← hf']; linarith
    unfold pyRound
    rw [← hf']
    split_ifs <;> first | omega | linarith
  · have h1 := pyRound_le_floor_add_one a
    have h2 := le_pyRound b
    omega

theorem compute_eq_pyRound_clamp (cfg : PricingConfig) (d t : ℚ) :
    compute_dynamic_delivery_fee cfg d t
      = pyRound (clampToBounds cfg (rawDynamicFee cfg d t)) := by
  simp only [compute_dynamic_delivery_fee, clampToBounds, rawDynamicFee]

theorem clampToBounds_mono (cfg : PricingConfig) {a b : ℚ} (h : a ≤ b) :
    clampToBounds cfg a ≤ clampToBounds cfg b := by
  unfold clampToBounds
  split_ifs <;> first | exact h | gcongr

theorem clampToBounds_range (cfg : PricingConfig) (x : ℚ)
    (h1 : 0 < cfg.minFee) (h2 : cfg.minFee ≤ cfg.maxFee) :
    cfg.minFee ≤ clampToBounds cfg x ∧ clampToBounds cfg x ≤ cfg.maxFee := by
  have hmax : 0 < cfg.maxFee := lt_of_lt_of_le h1 h2
  unfold clampToBounds
  rw [if_pos hmax, if_pos h1]
  exact ⟨le_min (le_max_right x _) h2, min_le_right _ _⟩

theorem rawDynamicFee_mono (cfg : PricingConfig) {d d' t t' : ℚ}
    (hk : 0 ≤ cfg.perKm) (hm : 0 ≤ cfg.perMin) (hd : d ≤ d') (ht : t ≤ t') :
    rawDynamicFee cfg d t ≤ rawDynamicFee cfg d' t' := by
  unfold rawDynamicFee
  gcongr

theorem findOrder_id {store : List Order} {oid : ℕ} {o : Order}
    (h : findOrder store oid = some o) : o.id = oid := by
  have := List.find?_some h
  simpa using this

theorem findOrder_mem {store : List Order} {oid : ℕ} {o : Order}
    (h : findOrder store oid = some o) : o ∈ store :=
  List.mem_of_find?_eq_some h

theorem map_updateOrder {α : Type} (store : List Order) (oid : ℕ) (g : Order → Order)
    (f : Order → α) (h : ∀ o, f (g o) = f o) :
    (updateOrder store oid g).map f = store.map f := by
  unfold updateOrder
  rw [List.map_map]
  apply List.map_congr_left
  intro o _
  by_cases ho : o.id = oid <;> simp [ho, h]

theorem findOrder_updateOrder (store : List Order) (oid : ℕ) (g : Order → Order)
    (hg : ∀ o, (g o).id = o.id) :
    findOrder (updateOrder store oid g) oid
      = (findOrder store oid).map fun o => if o.id = oid then g o else o := by
  induction store with
  | nil => rfl
  | cons o rest ih =>
    by_cases h : o.id = oid
    · simp [findOrder, updateOrder, List.find?, h, hg]
    · simpa [findOrder, updateOrder, List.find?, h] using ih

theorem accept_some (store : List Order) (oid d : ℕ) (o : Order)
    (ho : findOrder store oid = some o) :
    api_driver_accept store oid d
      = if truthyDriver o.driverId then (.alreadyAssigned, store)
        else if o.status = "delivered" ∨ o.status = "cancelled" then (.alreadyClosed, store)
        else (.accepted (acceptNewStatus o.status),
              updateOrder store oid fun p =>
                { p with driverId := some d, status := acceptNewStatus o.status }) := by
  unfold api_driver_accept
  rw [ho]

theorem update_some (store : List Order) (d oid : ℕ) (st : String) (o : Order)
    (ho : findOrder store oid = some o) (hoid : oid ≠ 0) (hst : st ≠ "") :
    api_driver_update store d (some oid) (some st)
      = if o.driverId ≠ some d then (.wrongDriver, store)
        else if driverUpdateNewStatus o.status st ≠ o.status then
          (.ok, updateOrder store oid fun p =>
            { p with status := driverUpdateNewStatus o.status st })
        else (.ok, store) := by
  have h0 : api_driver_update store d (some oid) (some st)
      = api_driver_update_go store d oid st := rfl
  rw [h0]
  unfold api_driver_update_go
  rw [if_pos (And.intro hoid hst), ho]

/-- Claim C1: for every placed order (web form or JSON API), the stored
items_total equals the sum of unit_price times quantity over the submitted
line items, and the stored grand_total equals
items_total + service_fee + delivery_fee exactly, both computed and written at
creation time. -/
theorem C1_totals_at_creation (cfg : PricingConfig) (dist_km dur_min : ℚ)
    (store : List Order) (uidW : ℕ) (uid : Option ℕ) (i0 : Item) (rest : List Item)
    (la lb lc ld : Option ℚ) (newId now : ℕ) :
    (∃ r : Order, webOrder cfg store uidW (i0 :: rest) newId now = store ++ [r] ∧
        r.itemsTotal = itemsSum (i0 :: rest) ∧
        r.grandTotal = r.itemsTotal + r.serviceFee + r.deliveryFee) ∧
    (∃ r : Order,
        (api_order cfg dist_km dur_min store uid (i0 :: rest) la lb lc ld newId now).2
          = store ++ [r] ∧
        (api_order cfg dist_km dur_min store uid (i0 :: rest) la lb lc ld newId now).1
          = .placed newId r.grandTotal ∧
        r.itemsTotal = itemsSum (i0 :: rest) ∧
        r.grandTotal = r.itemsTotal + r.serviceFee + r.deliveryFee) :=
  ⟨⟨_, rfl, rfl, rfl⟩, ⟨_, rfl, rfl, rfl, rfl⟩⟩

/-- Claim C4 counterexample: with base fee 10.2, minimum fee 10.5 and no other
charges, the code first clamps (10.2 to 10.5) and then rounds, returning 10,
while the claimed round-then-clamp pipeline rounds 10.2 to 10 and then clamps
up to 10.5; the two pipelines disagree. -/
theorem C4_counterexample :
    (compute_dynamic_delivery_fee cfgFracMin 0 0 : ℚ)
        ≠ dynamicFeeRoundThenClamp cfgFracMin 0 0 ∧
    compute_dynamic_delivery_fee cfgFracMin 0 0 = 10 ∧
    dynamicFeeRoundThenClamp cfgFracMin 0 0 = 21/2 := by
  have h1 : ⌊(21/2 : ℚ)⌋ = 10 := by norm_num
  have h2 : ⌊(51/5 : ℚ)⌋ = 10 := by norm_num
  refine ⟨?_, ?_, ?_⟩
  · simp only [compute_dynamic_delivery_fee, dynamicFeeRoundThenClamp, rawDynamicFee, cfgFracMin]
    norm_num [pyRound, h1, h2]
  · simp only [compute_dynamic_delivery_fee, cfgFracMin]
    norm_num [pyRound, h1]
  · simp only [dynamicFeeRoundThenClamp, rawDynamicFee, cfgFracMin]
    norm_num [pyRound, h2]

/-- Claim C4 (amended): in dynamic mode with a valid origin and destination,
the delivery fee equals the linear formula
base + per_km × max(distance, 0) + per_min × max(duration, 0), first clamped
to the configured bounds (each side active only when its bound is positive, so
a bound of 0 means no clamp on that side) and then rounded half-to-even;
distance and duration are floored at 0 before multiplication, so the fee is
unchanged if negative inputs are replaced by 0. -/
theorem C4_clamp_then_round (cfg : PricingConfig) (dist_km dur_min : ℚ) :
    compute_dynamic_delivery_fee cfg dist_km dur_min
      = pyRound (clampToBounds cfg (rawDynamicFee cfg dist_km dur_min)) ∧
    compute_dynamic_delivery_fee cfg dist_km dur_min
      = compute_dynamic_delivery_fee cfg (max dist_km 0) (max dur_min 0) := by
  refine ⟨compute_eq_pyRound_clamp cfg dist_km dur_min, ?_⟩
  have hd : max (max dist_km 0) 0 = max dist_km 0 := max_eq_left (le_max_right _ _)
  have ht : max (max dur_min 0) 0 = max dur_min 0 := max_eq_left (le_max_right _ _)
  simp only [compute_dynamic_delivery_fee, hd, ht]

/-- Claim C9 counterexample: the web-form order path performs no item-list
validation; a POST with an empty item list writes an order row (with
items_total 0) instead of being rejected. -/
theorem C9_counterexample :
    webOrder cfgFlat [] 1 [] 1 0 ≠ [] ∧
    (webOrder cfgFlat [] 1 [] 1 0).length = 1 := by
  constructor
  · simp [webOrder]
  · simp [webOrder]

/-- Claim C9 (amended): an order-placement request with an empty item list is
rejected with no store write by the JSON API path only; the web-form path
performs no validation and writes an order row with items_total 0 even for an
empty item list. -/
theorem C9_empty_items (cfg : PricingConfig) (dist_km dur_min : ℚ)
    (store : List Order) (uid : Option ℕ) (uidW : ℕ)
    (la lb lc ld : Option ℚ) (newId now : ℕ) :
    api_order cfg dist_km dur_min store uid [] la lb lc ld newId now
      = (.noItems, store) ∧
    ∃ r : Order, webOrder cfg store uidW [] newId now = store ++ [r] ∧
      r.itemsTotal = 0 ∧ r.status = "pending" := by
  refine ⟨rfl, ⟨_, rfl, ?_, rfl⟩⟩
  simp [itemsSum]

/-- Claim C10: in dynamic pricing mode, the JSON order endpoint computes a
dynamic delivery fee only when all four coordinates (restaurant lat/lng and
dropoff lat/lng) are nonzero; if any coordinate is missing or exactly 0 —
including a genuine latitude or longitude of 0 — the order is still placed,
silently priced with the flat fee instead. -/
theorem C10_dynamic_fee_gating (cfg : PricingConfig) (dist_km dur_min : ℚ)
    (store : List Order) (uid : Option ℕ) (i0 : Item) (rest : List Item)
    (la lb lc ld : Option ℚ) (newId now : ℕ) :
    (cfg.mode = "dynamic" → la.getD 0 ≠ 0 → lb.getD 0 ≠ 0 → lc.getD 0 ≠ 0 →
      ld.getD 0 ≠ 0 →
      ∃ r : Order,
        (api_order cfg dist_km dur_min store uid (i0 :: rest) la lb lc ld newId now).2
          = store ++ [r] ∧
        r.deliveryFee = (compute_dynamic_delivery_fee cfg dist_km dur_min : ℚ)) ∧
    ((la.getD 0 = 0 ∨ lb.getD 0 = 0 ∨ lc.getD 0 = 0 ∨ ld.getD 0 = 0) →
      ∃ r : Order,
        (api_order cfg dist_km dur_min store uid (i0 :: rest) la lb lc ld newId now).2
          = store ++ [r] ∧
        r.deliveryFee = cfg.flatFee ∧
        (api_order cfg dist_km dur_min store uid (i0 :: rest) la lb lc ld newId now).1
          = .placed newId r.grandTotal) := by
  constructor
  · intro hm h1 h2 h3 h4
    refine ⟨_, rfl, ?_⟩
    simp [apiOrderRow, hm, h1, h2, h3, h4]
  · intro hz
    have hcond : ¬(cfg.mode = "dynamic" ∧ lc.getD 0 ≠ 0 ∧ ld.getD 0 ≠ 0 ∧
        la.getD 0 ≠ 0 ∧ lb.getD 0 ≠ 0) := by
      rintro ⟨-, hc, hd, ha, hb⟩
      rcases hz with h | h | h | h <;> [exact ha h; exact hb h; exact hc h; exact hd h]
    refine ⟨_, rfl, ?_, rfl⟩
    simp only [apiOrderRow, if_neg hcond]

/-- Claim C2 counterexample: an order in status `confirmed` — outside the
claimed dispatchable set {pending, preparing, ready} — with no driver is
accepted successfully (the claim requires a conflict here), and the driver
reference is written. -/
theorem C2_counterexample :
    confirmedOrder.status = "confirmed" ∧ confirmedOrder.driverId = none ∧
    (api_driver_accept [confirmedOrder] 1 7).1 = .accepted "confirmed" ∧
    (findOrder (api_driver_accept [confirmedOrder] 1 7).2 1).map Order.driverId
      = some (some 7) := by decide

/-- Claim C2 (amended): accept_order(order_id, driver_id) with a nonzero
driver id succeeds if and only if the order exists, its driver reference is
falsy (null or 0), and its status is anything other than `delivered` or
`cancelled`; on success it sets the driver reference and rewrites the status
to `on_the_way` when the current status is `pending`, `preparing` or
`on_the_way`, leaving any other status unchanged (so the status never moves
backward); on failure the store is unchanged; and after a success every
subsequent accept of the same order id reports an already-assigned conflict,
so at most one driver can ever successfully accept a given order id. -/
theorem C2_accept_characterization (store : List Order) (oid d : ℕ) (hd : d ≠ 0) :
    (∀ o, findOrder store oid = some o → truthyDriver o.driverId = false →
        o.status ≠ "delivered" → o.status ≠ "cancelled" →
        api_driver_accept store oid d
          = (.accepted (acceptNewStatus o.status),
             updateOrder store oid fun p =>
               { p with driverId := some d, status := acceptNewStatus o.status }) ∧
        ∀ d', (api_driver_accept (api_driver_accept store oid d).2 oid d').1
            = .alreadyAssigned) ∧
    (∀ ns, (api_driver_accept store oid d).1 = .accepted ns →
        ∃ o, findOrder store oid = some o ∧ truthyDriver o.driverId = false ∧
          o.status ≠ "delivered" ∧ o.status ≠ "cancelled" ∧
          ns = acceptNewStatus o.status) ∧
    ((∀ ns, (api_driver_accept store oid d).1 ≠ .accepted ns) →
        (api_driver_accept store oid d).2 = store) := by
  refine ⟨?_, ?_, ?_⟩
  · intro o ho hdrv hds hcs
    have hacc : api_driver_accept store oid d
        = (.accepted (acceptNewStatus o.status),
           updateOrder store oid fun p =>
             { p with driverId := some d, status := acceptNewStatus o.status }) := by
      rw [accept_some store oid d o ho, if_neg (by simp [hdrv]),
        if_neg (by simp [hds, hcs])]
    refine ⟨hacc, ?_⟩
    intro d'
    have h2 : (api_driver_accept store oid d).2
        = updateOrder store oid fun p =>
            { p with driverId := some d, status := acceptNewStatus o.status } := by
      rw [hacc]
    have hfind2 : findOrder (api_driver_accept store oid d).2 oid
        = some { o with driverId := some d, status := acceptNewStatus o.status } := by
      rw [h2, findOrder_updateOrder store oid
        (fun p => { p with driverId := some d, status := acceptNewStatus o.status })
        (fun _ => rfl), ho, Option.map_some', if_pos (findOrder_id ho)]
    rw [accept_some _ oid d' _ hfind2, if_pos (by simp [truthyDriver, hd])]
  · intro ns hns
    cases hfind : findOrder store oid with
    | none =>
      rw [show api_driver_accept store oid d = (.notFound, store) by
        unfold api_driver_accept; rw [hfind]] at hns
      exact absurd hns (by simp)
    | some o =>
      rw [accept_some store oid d o hfind] at hns
      by_cases hdrv : truthyDriver o.driverId
      · rw [if_pos hdrv] at hns
        exact absurd hns (by simp)
      · rw [if_neg hdrv] at hns
        by_cases hterm : o.status = "delivered" ∨ o.status = "cancelled"
        · rw [if_pos hterm] at hns
          exact absurd hns (by simp)
        · push_neg at hterm
          rw [if_neg (by simp [hterm.1, hterm.2])] at hns
          simp only [AcceptResult.accepted.injEq] at hns
          exact ⟨o, rfl, Bool.eq_false_iff.mpr hdrv, hterm.1, hterm.2, hns.symm⟩
  · intro hfail
    cases hfind : findOrder store oid with
    | none =>
      rw [show api_driver_accept store oid d = (.notFound, store) by
        unfold api_driver_accept; rw [hfind]]
    | some o =>
      rw [accept_some store oid d o hfind]
      by_cases hdrv : truthyDriver o.driverId
      · rw [if_pos hdrv]
      · rw [if_neg hdrv]
        by_cases hterm : o.status = "delivered" ∨ o.status = "cancelled"
        · rw [if_pos hterm]
        · exfalso
          apply hfail (acceptNewStatus o.status)
          rw [accept_some store oid d o hfind, if_neg hdrv, if_neg hterm]

/-- Claim C3 counterexample: a `delivered` (terminal) order is moved back to
`pending` by the admin status endpoint, which reports success — the claim
requires a conflict and an unchanged store. -/
theorem C3_counterexample :
    deliveredOrder.status = "delivered" ∧
    (admin_order_status [deliveredOrder] 1 "pending").1 = true ∧
    (findOrder (admin_order_status [deliveredOrder] 1 "pending").2 1).map Order.status
      = some "pending" := by decide

/-- Claim C3 (amended): for an order whose status is `delivered` or
`cancelled`, every subsequent accept_order call is rejected with a conflict
and leaves the store unchanged; but set_order_status performs no
current-status check: any status in the admin enum is reported as a success
and overwrites the stored status, even on a terminal order. -/
theorem C3_terminal_state_handling (store : List Order) (oid d : ℕ) (o : Order)
    (ho : findOrder store oid = some o)
    (ht : o.status = "delivered" ∨ o.status = "cancelled") :
    ((api_driver_accept store oid d).1 = .alreadyAssigned ∨
      (api_driver_accept store oid d).1 = .alreadyClosed) ∧
    (api_driver_accept store oid d).2 = store ∧
    ∀ ns, ns ∈ allowedStatuses →
      admin_order_status store oid ns
        = (true, updateOrder store oid fun p => { p with status := ns }) ∧
      findOrder (admin_order_status store oid ns).2 oid
        = some { o with status := ns } := by
  refine ⟨?_, ?_, ?_⟩
  · rw [accept_some store oid d o ho]
    by_cases hdrv : truthyDriver o.driverId
    · rw [if_pos hdrv]; left; rfl
    · rw [if_neg hdrv, if_pos ht]; right; rfl
  · rw [accept_some store oid d o ho]
    by_cases hdrv : truthyDriver o.driverId
    · rw [if_pos hdrv]
    · rw [if_neg hdrv, if_pos ht]
  · intro ns hns
    have hadm : admin_order_status store oid ns
        = (true, updateOrder store oid fun p => { p with status := ns }) := by
      unfold admin_order_status
      rw [if_pos hns]
    refine ⟨hadm, ?_⟩
    rw [hadm, findOrder_updateOrder store oid
      (fun p => { p with status := ns }) (fun _ => rfl), ho,
      Option.map_some', if_pos (findOrder_id ho)]

/-- Claim C5 counterexample: a driver-reported `picked_up` on an assigned
`pending` order changes the canonical status to `on_the_way` and records no
pickup timestamp, and a driver-reported `delivered` records no `delivered_at`
— the claim requires the status to stay unchanged on `picked_up` and both
timestamps to be set. -/
theorem C5_counterexample :
    assignedPendingOrder.status = "pending" ∧
    assignedPendingOrder.pickedUpAt = none ∧
    assignedPendingOrder.deliveredAt = none ∧
    (api_driver_update [assignedPendingOrder] 5 (some 1) (some "picked_up")).1 = .ok ∧
    (findOrder (api_driver_update [assignedPendingOrder] 5 (some 1) (some "picked_up")).2 1).map
        Order.status = some "on_the_way" ∧
    (findOrder (api_driver_update [assignedPendingOrder] 5 (some 1) (some "picked_up")).2 1).map
        Order.pickedUpAt = some none ∧
    (findOrder (api_driver_update [assignedPendingOrder] 5 (some 1) (some "delivered")).2 1).map
        Order.status = some "delivered" ∧
    (findOrder (api_driver_update [assignedPendingOrder] 5 (some 1) (some "delivered")).2 1).map
        Order.deliveredAt = some none := by decide

/-- Claim C5 (amended): for an order assigned to the reporting driver, a
driver-reported sub-status of `picked_up` rewrites the canonical status to
`on_the_way`, a driver-reported `delivered` rewrites it to `delivered`, and
any other sub-status value is a no-op on the store; no pickup or delivery
timestamp column is ever written by this endpoint. -/
theorem C5_driver_substatus (store : List Order) (d oid : ℕ) (o : Order) (st : String)
    (ho : findOrder store oid = some o) (hdrv : o.driverId = some d) (hoid : oid ≠ 0) :
    (st = "picked_up" → o.status ≠ "on_the_way" →
      api_driver_update store d (some oid) (some st)
        = (.ok, updateOrder store oid fun p => { p with status := "on_the_way" })) ∧
    (st = "delivered" → o.status ≠ "delivered" →
      api_driver_update store d (some oid) (some st)
        = (.ok, updateOrder store oid fun p => { p with status := "delivered" })) ∧
    (st ≠ "picked_up" → st ≠ "delivered" →
      api_driver_update store d (some oid) (some st) = (.ok, store)) ∧
    ((api_driver_update store d (some oid) (some st)).2.map Order.pickedUpAt
        = store.map Order.pickedUpAt) ∧
    ((api_driver_update store d (some oid) (some st)).2.map Order.deliveredAt
        = store.map Order.deliveredAt) := by
  have hdrv' : ¬o.driverId ≠ some d := fun h => h hdrv
  refine ⟨?_, ?_, ?_, ?_, ?_⟩
  · intro hst hstat
    rw [update_some store d oid st o ho hoid (by rw [hst]; decide), if_neg hdrv',
      if_pos (by simp [driverUpdateNewStatus, hst, Ne.symm hstat]),
      show driverUpdateNewStatus o.status st = "on_the_way" by
        simp [driverUpdateNewStatus, hst]]
  · intro hst hstat
    rw [update_some store d oid st o ho hoid (by rw [hst]; decide), if_neg hdrv',
      if_pos (by simp [driverUpdateNewStatus, hst, Ne.symm hstat]),
      show driverUpdateNewStatus o.status st = "delivered" by
        simp [driverUpdateNewStatus, hst]]
  · intro h1 h2
    by_cases hst : st = ""
    · rw [hst]
      have h0 : api_driver_update store d (some oid) (some "")
          = api_driver_update_go store d oid "" := rfl
      rw [h0]
      unfold api_driver_update_go
      rw [if_neg (by simp)]
    · rw [update_some store d oid st o ho hoid hst, if_neg hdrv',
        if_neg (by simp [driverUpdateNewStatus, h1, h2])]
  · by_cases hst : st = ""
    · rw [hst]
      have h0 : api_driver_update store d (some oid) (some "")
          = api_driver_update_go store d oid "" := rfl
      rw [h0]
      unfold api_driver_update_go
      rw [if_neg (by simp)]
    · rw [update_some store d oid st o ho hoid hst, if_neg hdrv']
      by_cases hch : driverUpdateNewStatus o.status st ≠ o.status
      · rw [if_pos hch]
        exact map_updateOrder store oid _ _ (fun _ => rfl)
      · rw [if_neg hch]
  · by_cases hst : st = ""
    · rw [hst]
      have h0 : api_driver_update store d (some oid) (some "")
          = api_driver_update_go store d oid "" := rfl
      rw [h0]
      unfold api_driver_update_go
      rw [if_neg (by simp)]
    · rw [update_some store d oid st o ho hoid hst, if_neg hdrv']
      by_cases hch : driverUpdateNewStatus o.status st ≠ o.status
      · rw [if_pos hch]
        exact map_updateOrder store oid _ _ (fun _ => rfl)
      · rw [if_neg hch]

/-- Claim C6 counterexample: with a negative configured per-km rate the
dynamic fee strictly decreases as distance grows, and with the fractional
minimum fee 10.5 and maximum fee 20 both configured and nonzero, the returned
fee is 10, strictly below the minimum bound. -/
theorem C6_counterexample :
    compute_dynamic_delivery_fee cfgNegRate 1 0
        < compute_dynamic_delivery_fee cfgNegRate 0 0 ∧
    0 < cfgFracClamp.minFee ∧ cfgFracClamp.minFee ≤ cfgFracClamp.maxFee ∧
    (compute_dynamic_delivery_fee cfgFracClamp 0 0 : ℚ) < cfgFracClamp.minFee := by
  have h1 : ⌊(-1 : ℚ)⌋ = -1 := by norm_num
  have h0 : ⌊(0 : ℚ)⌋ = 0 := by norm_num
  have h2 : ⌊(21/2 : ℚ)⌋ = 10 := by norm_num
  refine ⟨?_, by norm_num [cfgFracClamp], by norm_num [cfgFracClamp], ?_⟩
  · simp only [compute_dynamic_delivery_fee, cfgNegRate]
    norm_num [pyRound, max_def, h1, h0]
  · simp only [compute_dynamic_delivery_fee, cfgFracClamp]
    norm_num [pyRound, max_def, min_def, h2]

/-- Claim C6 (amended): holding all pricing parameters fixed, the dynamic-mode
delivery fee is monotonically non-decreasing in distance and in duration
provided the configured per-km and per-min rates are nonnegative; whenever
0 < min_fee ≤ max_fee, the clamped value (before rounding) lies within
[min_fee, max_fee] and the returned rounded fee lies within
[round(min_fee), round(max_fee)]; and in flat mode the JSON order result is
invariant to the distance and duration inputs. -/
theorem C6_fee_monotonic_and_bounded (cfg : PricingConfig) (d d' t t' : ℚ)
    (hk : 0 ≤ cfg.perKm) (hm : 0 ≤ cfg.perMin) (hd : d ≤ d') (ht : t ≤ t') :
    compute_dynamic_delivery_fee cfg d t ≤ compute_dynamic_delivery_fee cfg d' t' ∧
    (0 < cfg.minFee → cfg.minFee ≤ cfg.maxFee →
      cfg.minFee ≤ clampToBounds cfg (rawDynamicFee cfg d t) ∧
      clampToBounds cfg (rawDynamicFee cfg d t) ≤ cfg.maxFee ∧
      pyRound cfg.minFee ≤ compute_dynamic_delivery_fee cfg d t ∧
      compute_dynamic_delivery_fee cfg d t ≤ pyRound cfg.maxFee) ∧
    (cfg.mode ≠ "dynamic" →
      ∀ (store : List Order) (uid : Option ℕ) (items : List Item)
        (la lb lc ld : Option ℚ) (newId now : ℕ),
        api_order cfg d t store uid items la lb lc ld newId now
          = api_order cfg d' t' store uid items la lb lc ld newId now) := by
  refine ⟨?_, ?_, ?_⟩
  · rw [compute_eq_pyRound_clamp, compute_eq_pyRound_clamp]
    exact pyRound_mono (clampToBounds_mono cfg (rawDynamicFee_mono cfg hk hm hd ht))
  · intro h1 h2
    obtain ⟨ha, hb⟩ := clampToBounds_range cfg (rawDynamicFee cfg d t) h1 h2
    refine ⟨ha, hb, ?_, ?_⟩
    · rw [compute_eq_pyRound_clamp]
      exact pyRound_mono ha
    · rw [compute_eq_pyRound_clamp]
      exact pyRound_mono hb
  · intro hmode store uid items la lb lc ld newId now
    cases items with
    | nil => rfl
    | cons i0 rest =>
      have hrow : apiOrderRow cfg d t uid (i0 :: rest) la lb lc ld newId now
          = apiOrderRow cfg d' t' uid (i0 :: rest) la lb lc ld newId now := by
        simp only [apiOrderRow]
        rw [if_neg (fun hc => hmode hc.1), if_neg (fun hc => hmode hc.1)]
      simp only [api_order, hrow]

/-- Claim C7 counterexample: a `pending` order with no driver — dispatchable
according to the claim's set {pending, preparing, ready} — is absent from the
dispatch listing, which filters on {confirmed, preparing, ready}. -/
theorem C7_counterexample :
    pendingOrder.status = "pending" ∧ pendingOrder.driverId = none ∧
    api_open_orders [pendingOrder] = [] := by
  refine ⟨rfl, rfl, ?_⟩
  simp [api_open_orders, openOrderPred, pendingOrder, confirmedOrder]

/-- Claim C7 (amended): the primary dispatch listing returns exactly the
orders whose status is in {confirmed, preparing, ready} — not the claimed
{pending, preparing, ready} — and whose driver reference is null or 0, ordered
by ascending id (oldest first, as ids are assigned monotonically), capped at
50 (the completeness direction holds whenever at most 50 orders qualify); the
secondary drivers_api listing never returns a list at all: its query selects
the column `customer_name` (among others) which no `orders` schema in the
repository defines, so every call fails with an operational error instead of
a bounded page. -/
theorem C7_dispatch_listing (store : List Order) :
    (api_open_orders store).length ≤ 50 ∧
    (∀ o, o ∈ api_open_orders store → o ∈ store ∧ openOrderPred o = true) ∧
    ((store.filter openOrderPred).length ≤ 50 →
      ∀ o, o ∈ store → openOrderPred o = true → o ∈ api_open_orders store) ∧
    (api_open_orders store).Pairwise (fun a b => a.id ≤ b.id) ∧
    ("customer_name" ∈ driverOrdersSelectColumns ∧ "customer_name" ∉ ordersColumns) ∧
    api_driver_orders store = .error "no such column: customer_name" := by
  have hperm := List.mergeSort_perm (store.filter openOrderPred)
    (fun a b => a.id ≤ b.id)
  refine ⟨?_, ?_, ?_, ?_, ?_, ?_⟩
  · unfold api_open_orders
    rw [List.length_take]
    exact min_le_left _ _
  · intro o ho
    have h1 : o ∈ (store.filter openOrderPred).mergeSort (fun a b => a.id ≤ b.id) :=
      List.take_subset _ _ ho
    have h2 : o ∈ store.filter openOrderPred := hperm.mem_iff.mp h1
    exact List.mem_filter.mp h2
  · intro hlen o ho hp
    have hlen2 : ((store.filter openOrderPred).mergeSort
        (fun a b => a.id ≤ b.id)).length ≤ 50 := by
      rw [hperm.length_eq]
      exact hlen
    unfold api_open_orders
    rw [List.take_of_length_le hlen2]
    exact hperm.mem_iff.mpr (List.mem_filter.mpr ⟨ho, hp⟩)
  · have hs := @List.sorted_mergeSort Order
      (fun (a b : Order) => a.id ≤ b.id)
      (fun a b c hab hbc => by
        simp only [decide_eq_true_eq] at *
        omega)
      (fun a b => by
        simp only [Bool.or_eq_true, decide_eq_true_eq]
        omega)
      (store.filter openOrderPred)
    exact ((hs.sublist (List.take_sublist _ _)).imp
      (fun h => by simpa using h))
  · exact ⟨by decide, by decide⟩
  · rfl

/-- Witness for the amended claim C2, at a concrete pending unassigned order
accepted by driver 7. -/
theorem C2_witness :
    api_driver_accept [pendingOrder] 1 7
      = (.accepted (acceptNewStatus pendingOrder.status),
         updateOrder [pendingOrder] 1 fun p =>
           { p with driverId := some 7, status := acceptNewStatus pendingOrder.status }) ∧
    ∀ d', (api_driver_accept (api_driver_accept [pendingOrder] 1 7).2 1 d').1
        = .alreadyAssigned :=
  (C2_accept_characterization [pendingOrder] 1 7 (by decide)).1
    pendingOrder rfl rfl (by decide) (by decide)

/-- Witness for the amended claim C3, at a concrete delivered order. -/
theorem C3_witness :
    ((api_driver_accept [deliveredOrder] 1 9).1 = .alreadyAssigned ∨
      (api_driver_accept [deliveredOrder] 1 9).1 = .alreadyClosed) ∧
    (api_driver_accept [deliveredOrder] 1 9).2 = [deliveredOrder] ∧
    ∀ ns, ns ∈ allowedStatuses →
      admin_order_status [deliveredOrder] 1 ns
        = (true, updateOrder [deliveredOrder] 1 fun p => { p with status := ns }) ∧
      findOrder (admin_order_status [deliveredOrder] 1 ns).2 1
        = some { deliveredOrder with status := ns } :=
  C3_terminal_state_handling [deliveredOrder] 1 9 deliveredOrder rfl (Or.inl rfl)

/-- Witness for the amended claim C5, at a concrete assigned pending order
whose driver reports `picked_up`. -/
theorem C5_witness :
    api_driver_update [assignedPendingOrder] 5 (some 1) (some "picked_up")
      = (.ok, updateOrder [assignedPendingOrder] 1 fun p =>
          { p with status := "on_the_way" }) :=
  (C5_driver_substatus [assignedPendingOrder] 5 1 assignedPendingOrder "picked_up"
      rfl rfl (by decide)).1 rfl (by decide)

/-- Witness for the amended claim C6, at a concrete dynamic configuration with
nonnegative rates and bounds 0 < min_fee ≤ max_fee. -/
theorem C6_witness :
    compute_dynamic_delivery_fee cfgDyn 1 1 ≤ compute_dynamic_delivery_fee cfgDyn 2 2 ∧
    pyRound cfgDyn.minFee ≤ compute_dynamic_delivery_fee cfgDyn 1 1 ∧
    compute_dynamic_delivery_fee cfgDyn 1 1 ≤ pyRound cfgDyn.maxFee := by
  have h := C6_fee_monotonic_and_bounded cfgDyn 1 2 1 2 (by norm_num [cfgDyn])
    (by norm_num [cfgDyn]) (by norm_num) (by norm_num)
  have h2 := h.2.1 (by norm_num [cfgDyn]) (by norm_num [cfgDyn])
  exact ⟨h.1, h2.2.2.1, h2.2.2.2⟩

/-- Witness for the amended claim C7: a confirmed unassigned order is listed
when the store holds at most 50 qualifying orders. -/
theorem C7_witness :
    confirmedOrder ∈ api_open_orders [confirmedOrder] :=
  (C7_dispatch_listing [confirmedOrder]).2.2.1 (by decide) confirmedOrder
    (by simp) (by decide)

/-- Witness for claim C10, at a dynamic configuration with all four
coordinates present and nonzero. -/
theorem C10_witness :
    ∃ r : Order,
      (api_order cfgDyn 2 6 [] none [⟨10, 2⟩] (some 1) (some 1) (some 1) (some 1) 1 0).2
        = [] ++ [r] ∧
      r.deliveryFee = (compute_dynamic_delivery_fee cfgDyn 2 6 : ℚ) :=
  (C10_dynamic_fee_gating cfgDyn 2 6 [] none ⟨10, 2⟩ [] (some 1) (some 1) (some 1) (some 1) 1 0).1
    rfl (by norm_num) (by norm_num) (by norm_num) (by norm_num)

end IndianFood
